import Mathlib

/-!
Shallow embedding of the Storytelling-Web wizard and its collaborators.

The definitions below are translated from the repository sources:
* `src/pages/StoryWizard.tsx` — the idle-prompt wizard controller
  (interaction modes, one-second tick, selection, step confirmation,
  badge issuance, story generation, voice input appending);
* `src/services/geminiService.ts` (shipped as `src/unnamed/part_001`) —
  the text, suggestion, image and story-segment generation wrappers with
  their fallback behaviour;
* `src/pages/StoryReader.tsx` (shipped as `src/unnamed/part_003`) —
  the reader page navigation.

Asynchronous handlers are modelled as atomic operations on the component
state; results of external service calls (suggestion lists, generated
images, story segments, failures) enter the model as event parameters or
as an oracle function `gen : String → String` standing for the total
`generateImage` wrapper, which never throws (it catches internally and
returns a placeholder URL).
-/

namespace StoryApp

/-- `WizardStep` numeric enum from `src/types.ts`. -/
def AGE_SELECTION : Nat := 0

/-- `WizardStep.CHARACTER` from `src/types.ts`. -/
def CHARACTER : Nat := 1

/-- `WizardStep.PLACE` from `src/types.ts`. -/
def PLACE : Nat := 2

/-- `WizardStep.TIME` from `src/types.ts`. -/
def TIME : Nat := 3

/-- `WizardStep.PLOT` from `src/types.ts`. -/
def PLOT : Nat := 4

/-- `WizardStep.PREVIEW` from `src/types.ts`. -/
def PREVIEW : Nat := 5

/-- `AgeGroup` enum from `src/types.ts`. -/
inductive AgeGroup where
  | toddler
  | earlyReader
  | preTeen
deriving DecidableEq, Repr

/-- `InteractionMode` from `StoryWizard.tsx`. -/
inductive InteractionMode where
  | input
  | options
  | confirmation
deriving DecidableEq, Repr

/-- `OptionCard` from `StoryWizard.tsx`: a suggested option slot. -/
structure OptionCard where
  label : String
  imageUrl : Option String
  loading : Bool
deriving DecidableEq, Repr

/-- The `{ description, imageUrl }` objects stored for character/place. -/
structure ChosenValue where
  description : String
  imageUrl : String
deriving DecidableEq, Repr

/-- `StoryPage` from `src/types.ts` as built by `generatePage`. -/
structure StoryPage where
  text : String
  imageUrl : String
  imagePrompt : String
deriving DecidableEq, Repr

/-- A story segment returned by `generateStorySegments`. -/
structure Segment where
  text : String
  imagePrompt : String
deriving DecidableEq, Repr

/-- The full component state of `StoryWizard` (its `useState` hooks).
`badgeLog` is a ghost history variable recording, in order, the badge id
of every `setNewBadge` call made with a non-null badge; it exists only so
that theorems can count how often a badge was issued. -/
structure WizState where
  step : Nat
  ageGroup : Option AgeGroup
  character : Option ChosenValue
  place : Option ChosenValue
  time : Option String
  plotInput : String
  generatedPages : List StoryPage
  isLoading : Bool
  inactivityTimer : Nat
  mode : InteractionMode
  suggestedOptions : List OptionCard
  autoSelectCandidate : Option OptionCard
  currentPoints : Nat
  newBadge : Option String
  tempInput : String
  badgeLog : List String
deriving DecidableEq, Repr

/-- Initial wizard state (the `useState` initialisers). -/
def initWizard (userPoints : Nat) : WizState :=
  { step := AGE_SELECTION
    ageGroup := none
    character := none
    place := none
    time := none
    plotInput := ""
    generatedPages := []
    isLoading := false
    inactivityTimer := 0
    mode := .input
    suggestedOptions := []
    autoSelectCandidate := none
    currentPoints := userPoints
    newBadge := none
    tempInput := ""
    badgeLog := [] }

/-- `activeSteps` from the tick effect: character, place, time. -/
def activeSteps : List Nat := [CHARACTER, PLACE, TIME]

/-- JavaScript `x || undefined` on a `string | null` value: both `null`
and the empty string collapse to `undefined`. -/
def jsOrUndef : Option String → Option String
  | none => none
  | some u => if u = "" then none else some u

/-- The image prompt used for a character choice. -/
def charPrompt (choice : String) : String :=
  "A cute " ++ choice ++ " character"

/-- The image prompt used for a place choice. -/
def placePrompt (choice : String) : String :=
  "A cartoon background of " ++ choice

/-- `handleSelection(choice, preGeneratedImage?)` run to completion: it
resets the inactivity timer, returns the mode to `input`, stores the
chosen value for the current step (generating an image through the
oracle `gen` when none was pre-generated), and finally clears
`isLoading` and `tempInput`. -/
def handleSelection (gen : String → String) (choice : String)
    (pre : Option String) (s : WizState) : WizState :=
  if s.step = CHARACTER then
    { s with inactivityTimer := 0, mode := .input, isLoading := false,
             tempInput := "",
             character := some { description := choice,
                                 imageUrl := pre.getD (gen (charPrompt choice)) } }
  else if s.step = PLACE then
    { s with inactivityTimer := 0, mode := .input, isLoading := false,
             tempInput := "",
             place := some { description := choice,
                             imageUrl := pre.getD (gen (placePrompt choice)) } }
  else if s.step = TIME then
    { s with inactivityTimer := 0, mode := .input, isLoading := false,
             tempInput := "", time := some choice }
  else
    { s with inactivityTimer := 0, mode := .input, isLoading := false,
             tempInput := "" }

/-- `setNewBadge(badge)` with a non-null badge; also records the id in
the ghost `badgeLog`. -/
def setNewBadgeM (b : String) (s : WizState) : WizState :=
  { s with newBadge := some b, badgeLog := s.badgeLog ++ [b] }

/-- `checkBadges(step)` from `StoryWizard.tsx`. -/
def checkBadges (step : Nat) (s : WizState) : WizState :=
  if step = CHARACTER then setNewBadgeM "char_creator" s
  else if step = PLACE then setNewBadgeM "world_builder" s
  else s

/-- `confirmStep` from `StoryWizard.tsx`: award 10 points, check badges
for the current step, advance the step, return to `input` mode and clear
the suggestion state.  Note that it does not touch `inactivityTimer`. -/
def confirmStep (s : WizState) : WizState :=
  let s1 := { s with currentPoints := s.currentPoints + 10 }
  let s2 := checkBadges s1.step s1
  { s2 with step := s2.step + 1, mode := .input,
            suggestedOptions := [], autoSelectCandidate := none }

/-- The synchronous part of `handleShowOptions`: `setMode('options')`.
The awaited suggestion list arrives later as a separate event. -/
def handleShowOptionsSync (s : WizState) : WizState :=
  { s with mode := .options }

/-- The fallback candidate `{ label: "Magic Friend", ... }`. -/
def defaultCandidate : OptionCard :=
  { label := "Magic Friend", imageUrl := none, loading := false }

/-- `handleShowConfirmation`: switch to `confirmation` and pick
`suggestedOptions[0]` (or the fallback) as the auto-select candidate. -/
def handleShowConfirmation (s : WizState) : WizState :=
  { s with mode := .confirmation,
           autoSelectCandidate := some (s.suggestedOptions.headD defaultCandidate) }

/-- `handleAutoSelect`: commit the candidate through `handleSelection`,
exactly as a user click on it would. -/
def handleAutoSelect (gen : String → String) (s : WizState) : WizState :=
  match s.autoSelectCandidate with
  | some c => handleSelection gen c.label (jsOrUndef c.imageUrl) s
  | none => handleSelection gen "Magic Friend" none s

/-- One firing of the `setInterval` tick callback.  The interval (and
the activity listener) exist only while the step is an active collection
step and the wizard is not loading; otherwise the tick is a no-op. -/
def tickF (gen : String → String) (s : WizState) : WizState :=
  if s.isLoading = true ∨ s.step ∉ activeSteps then s
  else if s.inactivityTimer + 1 = 30 ∧ s.mode = .input ∧ s.tempInput = "" then
    handleShowOptionsSync { s with inactivityTimer := s.inactivityTimer + 1 }
  else if s.inactivityTimer + 1 = 60 ∧ s.mode = .options then
    handleShowConfirmation { s with inactivityTimer := s.inactivityTimer + 1 }
  else if s.inactivityTimer + 1 = 70 ∧ s.mode = .confirmation then
    handleAutoSelect gen { s with inactivityTimer := s.inactivityTimer + 1 }
  else { s with inactivityTimer := s.inactivityTimer + 1 }

/-- Whether the first character of a string is one of `.,!?;:`
(the regular expression test in `appendText`). -/
def startsWithPunct (str : String) : Bool :=
  match str.data with
  | [] => false
  | c :: _ => [',', '.', '!', '?', ';', ':'].contains c

/-- ASCII whitespace, the relevant fragment of the character class that
the JavaScript `trim` removes. -/
def isWsChar (c : Char) : Bool :=
  [' ', '\t', '\n', '\r'].contains c

/-- JavaScript `String.prototype.trim`: strip leading and trailing
whitespace. -/
def jsTrim (str : String) : String :=
  ⟨((str.data.dropWhile isWsChar).reverse.dropWhile isWsChar).reverse⟩

/-- `appendText` from `handleVoiceInput`. -/
def appendText (current newText : String) : String :=
  let cleanNew := jsTrim newText
  if cleanNew = "" then current
  else
    let needsSpace :=
      (current.length != 0) && (!(current.endsWith " ")) && (!(startsWithPunct cleanNew))
    current ++ (if needsSpace then " " else "") ++ cleanNew

/-- `handleVoiceInput(text)`: reset the timer, then append the fragment
to the plot input on the plot step, or to the temporary input
otherwise. -/
def handleVoiceInput (text : String) (s : WizState) : WizState :=
  if s.step = PLOT then
    { s with inactivityTimer := 0, plotInput := appendText s.plotInput text }
  else
    { s with inactivityTimer := 0, tempInput := appendText s.tempInput text }

/-- JavaScript falsiness of a `string | null` value (used by the
`!state.time` early-return check of `generatePage`). -/
def jsFalsyStr : Option String → Bool
  | none => true
  | some v => v = ""

/-- `generatePage` run to completion with the story-segment service
succeeding with `segs`: build the pages (one image per segment through
the oracle), award 50 points, issue the master badge, and advance to the
preview step.  The early return fires when character, place or time is
missing (or time is the empty string). -/
def generatePageOk (gen : String → String) (segs : List Segment)
    (s : WizState) : WizState :=
  if s.character.isNone ∨ s.place.isNone ∨ jsFalsyStr s.time = true then s
  else
    let pages := segs.map fun seg =>
      ({ text := seg.text, imageUrl := gen seg.imagePrompt,
         imagePrompt := seg.imagePrompt } : StoryPage)
    let s1 := { s with currentPoints := s.currentPoints + 50 }
    let s2 := setNewBadgeM "master_story" s1
    { s2 with generatedPages := pages, step := PREVIEW, isLoading := false }

/-- `generatePage` when the awaited generation chain throws: the alert
is shown, nothing is awarded, the step stays put and loading ends. -/
def generatePageFail (s : WizState) : WizState :=
  if s.character.isNone ∨ s.place.isNone ∨ jsFalsyStr s.time = true then s
  else { s with isLoading := false }

/-- `hasValue` for the rendered input step: the stored field is not
null. -/
def hasValue (s : WizState) : Bool :=
  if s.step = CHARACTER then s.character.isSome
  else if s.step = PLACE then s.place.isSome
  else if s.step = TIME then s.time.isSome
  else false

/-- Clearing the current field (the change button). -/
def clearField (s : WizState) : WizState :=
  if s.step = CHARACTER then { s with character := none }
  else if s.step = PLACE then { s with place := none }
  else if s.step = TIME then { s with time := none }
  else s

/-- `next[index] = { ...next[index], ... }` for an option image result:
on success store the image and stop loading, on failure only stop
loading. -/
def updateCard : List OptionCard → Nat → Option String → List OptionCard
  | [], _, _ => []
  | c :: cs, 0, some url => { c with imageUrl := some url, loading := false } :: cs
  | c :: cs, 0, none => { c with loading := false } :: cs
  | c :: cs, n + 1, r => c :: updateCard cs n r

/-- The events that can hit the wizard component: the one-second tick,
a detected window activity, the rendered controls, voice transcription
fragments, and the out-of-band completions of asynchronous service
calls. -/
inductive WEvent where
  | tick
  | activity
  | chooseAge (g : AgeGroup)
  | typeText (v : String)
  | submitInput
  | selectOption (idx : Nat)
  | confirmYes
  | confirmNo
  | confirmStepBtn
  | changeValue
  | voice (text : String)
  | generateOk (segs : List Segment)
  | generateFail
  | suggestionsArrive (texts : List String)
  | imageResult (idx : Nat) (r : Option String)
  | closeBadge

/-- One event applied to the wizard state.  Guards mirror when the
corresponding control is rendered (or, for `tick`/`activity`, when the
interval and listeners are installed); asynchronous completions
(`suggestionsArrive`, `imageResult`, `voice`) are unguarded, matching
the out-of-band state updates of the source. -/
def wstep (gen : String → String) (s : WizState) : WEvent → WizState
  | .tick => tickF gen s
  | .activity =>
      if s.isLoading = false ∧ s.step ∈ activeSteps then
        if s.mode = .input then { s with inactivityTimer := 0 } else s
      else s
  | .chooseAge g =>
      if s.step = AGE_SELECTION then
        { s with ageGroup := some g, step := CHARACTER }
      else s
  | .typeText v =>
      if s.step ∈ activeSteps ∧ hasValue s = false ∧ s.mode ≠ .confirmation then
        { s with inactivityTimer := 0, tempInput := v }
      else s
  | .submitInput =>
      if s.step ∈ activeSteps ∧ hasValue s = false ∧ s.mode ≠ .confirmation then
        handleSelection gen s.tempInput none s
      else s
  | .selectOption idx =>
      if s.step ∈ activeSteps ∧ s.isLoading = false ∧ hasValue s = false
          ∧ s.mode = .options then
        match s.suggestedOptions[idx]? with
        | some card => handleSelection gen card.label (jsOrUndef card.imageUrl) s
        | none => s
      else s
  | .confirmYes =>
      if s.step ∈ activeSteps ∧ s.isLoading = false ∧ hasValue s = false
          ∧ s.mode = .confirmation then
        match s.autoSelectCandidate with
        | some c => handleSelection gen c.label (jsOrUndef c.imageUrl) s
        | none => s
      else s
  | .confirmNo =>
      if s.step ∈ activeSteps ∧ s.isLoading = false ∧ hasValue s = false
          ∧ s.mode = .confirmation ∧ s.autoSelectCandidate.isSome = true then
        { s with mode := .options }
      else s
  | .confirmStepBtn =>
      if s.step ∈ activeSteps ∧ hasValue s = true then confirmStep s else s
  | .changeValue =>
      if s.step ∈ activeSteps ∧ hasValue s = true then clearField s else s
  | .voice text => handleVoiceInput text s
  | .generateOk segs =>
      if s.step = PLOT ∧ s.isLoading = false then generatePageOk gen segs s else s
  | .generateFail =>
      if s.step = PLOT ∧ s.isLoading = false then generatePageFail s else s
  | .suggestionsArrive texts =>
      { s with suggestedOptions :=
          texts.map fun txt => { label := txt, imageUrl := none, loading := true } }
  | .imageResult idx r =>
      { s with suggestedOptions := updateCard s.suggestedOptions idx r }
  | .closeBadge => { s with newBadge := none }

/-- A wizard session: events folded over the initial state. -/
def runW (gen : String → String) (userPoints : Nat) (es : List WEvent) : WizState :=
  es.foldl (wstep gen) (initWizard userPoints)

/-! ### The generation service wrappers (`src/services/geminiService.ts`) -/

/-- Outcome of the suggestion request as seen by `generateSuggestions`:
the request may throw, the response text may be missing, and parsing the
text as a JSON string array may succeed or throw. -/
inductive SuggestOutcome where
  | svcFail
  | noText
  | parseFail
  | parsed (xs : List String)
deriving DecidableEq, Repr

/-- `generateSuggestions`: the parsed array on success, a fixed list
when the response has no text, and a fixed fallback list when the
request or the parse throws. -/
def generateSuggestions : SuggestOutcome → List String
  | .svcFail => ["A funny cat", "A big bear", "A flying fish"]
  | .parseFail => ["A funny cat", "A big bear", "A flying fish"]
  | .noText => ["Option 1", "Option 2", "Option 3"]
  | .parsed xs => xs

/-- Outcome of a plain text request: throw, or a response whose `text`
field may be absent. -/
inductive TextOutcome where
  | svcFail
  | ok (text : Option String)
deriving DecidableEq, Repr

/-- `generateText`: `response.text || ""` on success, a fixed fallback
sentence when the request throws. -/
def generateText : TextOutcome → String
  | .svcFail => "Something magical happened..."
  | .ok t => t.getD ""

/-- Outcome of an image request: throw, a response with no inline image
part, or inline base64 data. -/
inductive ImageOutcome where
  | svcFail
  | noImage
  | imageData (b64 : String)
deriving DecidableEq, Repr

/-- `generateImage`, parameterised by `enc` standing for
`encodeURIComponent`: a data URI on success, otherwise the deterministic
picsum placeholder derived from the prompt.  The missing-image case
throws inside the `try` and is caught by the same fallback. -/
def generateImageM (enc : String → String) (prompt : String) :
    ImageOutcome → String
  | .imageData b => "data:image/png;base64," ++ b
  | .noImage => "https://picsum.photos/seed/" ++ (enc prompt).take 10 ++ "/512/512"
  | .svcFail => "https://picsum.photos/seed/" ++ (enc prompt).take 10 ++ "/512/512"

/-- JavaScript `x || d` for `x : string | undefined` with a non-empty
default: the empty string also falls back. -/
def jsOr (x : Option String) (d : String) : String :=
  match x with
  | none => d
  | some v => if v = "" then d else v

/-- One parsed item of the story-segment JSON array. -/
structure SegItem where
  storyText : Option String
  imageDescription : Option String
deriving DecidableEq, Repr

/-- The inputs of `generateStorySegments`. -/
structure StoryInputs where
  character : String
  place : String
  time : String
  plot : String
deriving DecidableEq, Repr

/-- Outcome of the story-segment request: throw, parse failure, a parse
result that is not an array, or an array of items.  A missing response
text becomes `"[]"` and hence the empty array outcome. -/
inductive SegOutcome where
  | svcFail
  | parseFail
  | parsedNonArray
  | parsedArray (items : List SegItem)
deriving DecidableEq, Repr

/-- `generateStorySegments`: map the parsed array filling per-item
defaults; fall back to a single plot-derived segment when the parse
result is not an array or when anything throws. -/
def generateStorySegments (inp : StoryInputs) : SegOutcome → List Segment
  | .svcFail => [{ text := inp.plot, imagePrompt := inp.plot }]
  | .parseFail => [{ text := inp.plot, imagePrompt := inp.plot }]
  | .parsedNonArray =>
      [{ text := inp.plot, imagePrompt := inp.character ++ " in " ++ inp.place }]
  | .parsedArray items =>
      items.map fun it =>
        { text := jsOr it.storyText "Story continues...",
          imagePrompt := jsOr it.imageDescription (inp.character ++ " in " ++ inp.place) }

/-! ### The story reader (`src/pages/StoryReader.tsx`) -/

/-- `handleNext` on the current page index, for a story with `n` pages.
The index is an integer as in the source; the guard compares against
`n - 1`. -/
def readerNext (n : Nat) (p : Int) : Int :=
  if p < (n : Int) - 1 then p + 1 else p

/-- `handlePrev` on the current page index. -/
def readerPrev (p : Int) : Int :=
  if 0 < p then p - 1 else p

/-- The two navigation controls of the reader. -/
inductive ReaderEvent where
  | next
  | prev
deriving DecidableEq, Repr

/-- One navigation event applied to the page index. -/
def readerStep (n : Nat) (p : Int) : ReaderEvent → Int
  | .next => readerNext n p
  | .prev => readerPrev p

/-- A reader session: navigation events folded over the initial page
index 0. -/
def readerRun (n : Nat) (es : List ReaderEvent) : Int :=
  es.foldl (readerStep n) 0

/-! ### Concrete material for witnesses and counterexamples -/

/-- A concrete image oracle. -/
def gen0 : String → String := fun _ => "img"

/-- A concrete state on the character step. -/
def sBase : WizState := { initWizard 0 with step := CHARACTER }

/-! ### Helper lemmas -/

lemma checkBadges_badgeLog (st : Nat) (s : WizState) :
    (checkBadges st s).badgeLog
      = s.badgeLog ++ (if st = CHARACTER then ["char_creator"]
          else if st = PLACE then ["world_builder"] else []) := by
  simp only [checkBadges, setNewBadgeM, CHARACTER, PLACE]
  by_cases h1 : st = 1 <;> by_cases h2 : st = 2 <;> simp [h1, h2]

lemma checkBadges_step (st : Nat) (s : WizState) :
    (checkBadges st s).step = s.step := by
  simp only [checkBadges, setNewBadgeM, CHARACTER, PLACE]
  by_cases h1 : st = 1 <;> by_cases h2 : st = 2 <;> simp [h1, h2]

lemma checkBadges_inactivityTimer (st : Nat) (s : WizState) :
    (checkBadges st s).inactivityTimer = s.inactivityTimer := by
  simp only [checkBadges, setNewBadgeM, CHARACTER, PLACE]
  by_cases h1 : st = 1 <;> by_cases h2 : st = 2 <;> simp [h1, h2]

lemma checkBadges_currentPoints (st : Nat) (s : WizState) :
    (checkBadges st s).currentPoints = s.currentPoints := by
  simp only [checkBadges, setNewBadgeM, CHARACTER, PLACE]
  by_cases h1 : st = 1 <;> by_cases h2 : st = 2 <;> simp [h1, h2]

lemma confirmStep_mode (s : WizState) : (confirmStep s).mode = .input := rfl

lemma confirmStep_inactivityTimer (s : WizState) :
    (confirmStep s).inactivityTimer = s.inactivityTimer := by
  simp [confirmStep, checkBadges_inactivityTimer]

lemma confirmStep_step (s : WizState) : (confirmStep s).step = s.step + 1 := by
  simp [confirmStep, checkBadges_step]

lemma confirmStep_badgeLog (s : WizState) :
    (confirmStep s).badgeLog
      = s.badgeLog ++ (if s.step = CHARACTER then ["char_creator"]
          else if s.step = PLACE then ["world_builder"] else []) := by
  simp [confirmStep, checkBadges_badgeLog, checkBadges_step]

lemma handleSelection_inactivityTimer (gen : String → String) (choice : String)
    (pre : Option String) (s : WizState) :
    (handleSelection gen choice pre s).inactivityTimer = 0 := by
  unfold handleSelection
  split
  · rfl
  · split
    · rfl
    · split <;> rfl

lemma handleSelection_mode (gen : String → String) (choice : String)
    (pre : Option String) (s : WizState) :
    (handleSelection gen choice pre s).mode = .input := by
  unfold handleSelection
  split
  · rfl
  · split
    · rfl
    · split <;> rfl

lemma handleSelection_step (gen : String → String) (choice : String)
    (pre : Option String) (s : WizState) :
    (handleSelection gen choice pre s).step = s.step := by
  unfold handleSelection
  split
  · rfl
  · split
    · rfl
    · split <;> rfl

lemma handleSelection_badgeLog (gen : String → String) (choice : String)
    (pre : Option String) (s : WizState) :
    (handleSelection gen choice pre s).badgeLog = s.badgeLog := by
  unfold handleSelection
  split
  · rfl
  · split
    · rfl
    · split <;> rfl

lemma handleSelection_currentPoints (gen : String → String) (choice : String)
    (pre : Option String) (s : WizState) :
    (handleSelection gen choice pre s).currentPoints = s.currentPoints := by
  unfold handleSelection
  split
  · rfl
  · split
    · rfl
    · split <;> rfl

/-! ### C2 — idle counter on entering input mode -/

/-- A concrete state on the time step with a stored value and a nonzero
idle counter. -/
def s0c2 : WizState :=
  { initWizard 0 with
    step := TIME, time := some "night",
    inactivityTimer := 41, mode := .options }

/-- C2 counterexample: confirming a step (the next button) is an
operation that sets the interaction mode to input, yet it leaves the
inactivity timer at its previous value 41 instead of resetting it to 0,
refuting the claim as stated. -/
theorem c2_counterexample :
    (wstep gen0 s0c2 .confirmStepBtn).mode = .input
  ∧ (wstep gen0 s0c2 .confirmStepBtn).inactivityTimer = 41 := by
  exact ⟨by decide, by decide⟩

/-- C2 (amended): selecting a value resets the inactivity timer to 0 and
returns the mode to input; confirming a step also returns the mode to
input but leaves the inactivity timer unchanged. -/
theorem c2_amended_idle_reset (gen : String → String) (choice : String)
    (pre : Option String) (s : WizState) :
    (handleSelection gen choice pre s).inactivityTimer = 0
  ∧ (handleSelection gen choice pre s).mode = .input
  ∧ (confirmStep s).mode = .input
  ∧ (confirmStep s).inactivityTimer = s.inactivityTimer :=
  ⟨handleSelection_inactivityTimer gen choice pre s,
   handleSelection_mode gen choice pre s,
   confirmStep_mode s,
   confirmStep_inactivityTimer s⟩

/-! ### C3 — activity resets the idle counter only in input mode -/

/-- C3: a detected window activity (mousemove, keydown, touchstart)
resets the idle counter to 0 when the interaction mode is input, and
leaves the whole state unchanged when the mode is options or
confirmation. -/
theorem c3_activity_reset_iff_input (gen : String → String) (s : WizState)
    (h1 : s.step ∈ activeSteps) (h2 : s.isLoading = false) :
    wstep gen { s with mode := .input } .activity
      = { s with mode := .input, inactivityTimer := 0 }
  ∧ wstep gen { s with mode := .options } .activity = { s with mode := .options }
  ∧ wstep gen { s with mode := .confirmation } .activity
      = { s with mode := .confirmation } := by
  refine ⟨?_, ?_, ?_⟩ <;> simp [wstep, h1, h2]

/-- C3 witness at a concrete state. -/
theorem c3_witness :
    (sBase.step ∈ activeSteps) ∧ (sBase.isLoading = false)
  ∧ wstep gen0 { sBase with mode := .options } .activity
      = { sBase with mode := .options } :=
  ⟨by decide, rfl, (c3_activity_reset_iff_input gen0 sBase (by decide) rfl).2.1⟩

/-! ### C6 — text generation fallbacks -/

/-- C6: each text generation wrapper returns the parsed service result
on success, and on any failure a fallback that does not depend on the
failing response: a fixed suggestion list (the same one whether the
request or the parse failed), a fixed sentence, and a segment list
derived only from the wizard inputs. -/
theorem c6_generation_fallbacks (xs : List String) (t : String)
    (inp : StoryInputs) (items : List SegItem) :
    generateSuggestions .svcFail = ["A funny cat", "A big bear", "A flying fish"]
  ∧ generateSuggestions .parseFail = generateSuggestions .svcFail
  ∧ generateSuggestions .noText = ["Option 1", "Option 2", "Option 3"]
  ∧ generateSuggestions (.parsed xs) = xs
  ∧ generateText .svcFail = "Something magical happened..."
  ∧ generateText (.ok (some t)) = t
  ∧ generateStorySegments inp .svcFail = [{ text := inp.plot, imagePrompt := inp.plot }]
  ∧ generateStorySegments inp .parseFail = generateStorySegments inp .svcFail
  ∧ generateStorySegments inp .parsedNonArray
      = [{ text := inp.plot, imagePrompt := inp.character ++ " in " ++ inp.place }]
  ∧ generateStorySegments inp (.parsedArray items)
      = items.map fun it =>
          { text := jsOr it.storyText "Story continues...",
            imagePrompt := jsOr it.imageDescription (inp.character ++ " in " ++ inp.place) } :=
  ⟨rfl, rfl, rfl, rfl, rfl, rfl, rfl, rfl, rfl, rfl⟩

/-! ### C9 — reader page index stays in bounds -/

lemma readerStep_bounds (n : Nat) (p : Int) (e : ReaderEvent)
    (h0 : 0 ≤ p) (h1 : p ≤ (n : Int) - 1) :
    0 ≤ readerStep n p e ∧ readerStep n p e ≤ (n : Int) - 1 := by
  cases e <;> simp only [readerStep, readerNext, readerPrev] <;> split <;>
    constructor <;> omega

lemma readerFold_bounds (n : Nat) (es : List ReaderEvent) :
    ∀ p : Int, 0 ≤ p → p ≤ (n : Int) - 1 →
      0 ≤ es.foldl (readerStep n) p ∧ es.foldl (readerStep n) p ≤ (n : Int) - 1 := by
  induction es with
  | nil => intro p h0 h1; exact ⟨h0, h1⟩
  | cons e es ih =>
      intro p h0 h1
      simp only [List.foldl_cons]
      exact ih _ (readerStep_bounds n p e h0 h1).1 (readerStep_bounds n p e h0 h1).2

/-- C9: for a story with at least one page, the reader page index starts
at 0 and after any sequence of next/prev clicks remains a valid index:
at least 0 and at most the index of the last page. -/
theorem c9_reader_page_in_bounds (n : Nat) (es : List ReaderEvent) (h : 1 ≤ n) :
    readerRun n [] = 0
  ∧ 0 ≤ readerRun n es
  ∧ readerRun n es ≤ (n : Int) - 1 := by
  have hb := readerFold_bounds n es 0 le_rfl (by omega)
  exact ⟨rfl, hb.1, hb.2⟩

/-- C9 witness: a two-page story navigated past both ends. -/
theorem c9_witness :
    (1 ≤ 2)
  ∧ 0 ≤ readerRun 2 [.next, .next, .next, .prev, .prev, .prev]
  ∧ readerRun 2 [.next, .next, .next, .prev, .prev, .prev] ≤ (2 : Int) - 1 := by
  have h := c9_reader_page_in_bounds 2 [.next, .next, .next, .prev, .prev, .prev]
    (by decide)
  exact ⟨by decide, h.2.1, h.2.2⟩

/-! ### C10 — whitespace-only voice fragments are an identity -/

/-- C10: a voice-transcription fragment whose trimmed content is empty
leaves both the plot input and the temporary free-text input exactly as
they were, on every step. -/
theorem c10_voice_whitespace_identity (gen : String → String) (s : WizState)
    (txt : String) (h : jsTrim txt = "") :
    (wstep gen s (.voice txt)).plotInput = s.plotInput
  ∧ (wstep gen s (.voice txt)).tempInput = s.tempInput := by
  have happ : ∀ cur : String, appendText cur txt = cur := by
    intro cur; simp [appendText, h]
  simp only [wstep, handleVoiceInput]
  split <;> simp [happ]

/-- C10 witness: a blank fragment on a concrete state. -/
theorem c10_witness :
    (jsTrim "  " = "")
  ∧ (wstep gen0 sBase (.voice "  ")).plotInput = sBase.plotInput :=
  ⟨by decide, (c10_voice_whitespace_identity gen0 sBase "  " (by decide)).1⟩

/-! ### C1 — the tick drives the idle escalation as scheduled -/

/-- C1: on an active collection step while not loading, the tick that
raises the idle counter to 30 in input mode with empty free-text
switches the mode to options; the tick that raises it to 60 in options
mode runs `handleShowConfirmation`, so the mode becomes confirmation
with the first suggested option as the auto-select candidate; and the
tick that raises it to 70 in confirmation mode commits the candidate
through `handleSelection`, exactly the call a user click on it makes. -/
theorem c1_tick_escalation (gen : String → String) (s : WizState)
    (o c : OptionCard)
    (h1 : s.step ∈ activeSteps) (h2 : s.isLoading = false)
    (h3 : s.suggestedOptions.head? = some o)
    (h4 : s.autoSelectCandidate = some c) :
    (tickF gen { s with inactivityTimer := 29, mode := .input, tempInput := "" }).mode
      = .options
  ∧ (tickF gen { s with inactivityTimer := 29, mode := .input, tempInput := "" }).inactivityTimer
      = 30
  ∧ tickF gen { s with inactivityTimer := 59, mode := .options }
      = handleShowConfirmation { s with inactivityTimer := 60, mode := .options }
  ∧ (tickF gen { s with inactivityTimer := 59, mode := .options }).mode = .confirmation
  ∧ (tickF gen { s with inactivityTimer := 59, mode := .options }).autoSelectCandidate
      = some o
  ∧ tickF gen { s with inactivityTimer := 69, mode := .confirmation }
      = handleSelection gen c.label (jsOrUndef c.imageUrl)
          { s with inactivityTimer := 70, mode := .confirmation } := by
  have hhead : s.suggestedOptions.headD defaultCandidate = o := by
    cases hso : s.suggestedOptions with
    | nil => rw [hso] at h3; simp at h3
    | cons a l => rw [hso] at h3; simp at h3; simp [hso, h3]
  refine ⟨?_, ?_, ?_, ?_, ?_, ?_⟩ <;>
    simp [tickF, handleShowOptionsSync, handleShowConfirmation, handleAutoSelect,
      h1, h2, h3, h4, hhead]

/-- A concrete option card for the C1 witness. -/
def cardC1 : OptionCard := { label := "A funny cat", imageUrl := none, loading := false }

/-- A concrete state for the C1 witness. -/
def sC1 : WizState :=
  { initWizard 0 with
    step := CHARACTER,
    suggestedOptions := [cardC1],
    autoSelectCandidate := some cardC1 }

/-- C1 witness at a concrete state. -/
theorem c1_witness :
    (sC1.step ∈ activeSteps) ∧ (sC1.isLoading = false)
  ∧ (tickF gen0 { sC1 with inactivityTimer := 29, mode := .input, tempInput := "" }).mode
      = .options :=
  ⟨by decide, rfl,
   (c1_tick_escalation gen0 sC1 cardC1 cardC1 (by decide) rfl rfl rfl).1⟩

/-! ### C8 — the tick fires only at the exact thresholds -/

lemma tickF_mode_ge70 (gen : String → String) (s : WizState)
    (h : 70 ≤ s.inactivityTimer) :
    (tickF gen s).mode = s.mode ∧ 70 ≤ (tickF gen s).inactivityTimer := by
  unfold tickF
  split
  · exact ⟨rfl, h⟩
  · have h30 : ¬(s.inactivityTimer + 1 = 30 ∧ s.mode = .input ∧ s.tempInput = "") := by
      rintro ⟨h1, -, -⟩; omega
    have h60 : ¬(s.inactivityTimer + 1 = 60 ∧ s.mode = .options) := by
      rintro ⟨h1, -⟩; omega
    have h70 : ¬(s.inactivityTimer + 1 = 70 ∧ s.mode = .confirmation) := by
      rintro ⟨h1, -⟩; omega
    rw [if_neg h30, if_neg h60, if_neg h70]
    exact ⟨rfl, by simp; omega⟩

lemma tickF_iter_mode (gen : String → String) (k : Nat) :
    ∀ s : WizState, 70 ≤ s.inactivityTimer → ((tickF gen)^[k] s).mode = s.mode := by
  induction k with
  | zero => intro s h; rfl
  | succ k ih =>
      intro s h
      rw [Function.iterate_succ_apply]
      have hs := tickF_mode_ge70 gen s h
      rw [ih (tickF gen s) hs.2, hs.1]

/-- C8: a tick whose incremented counter is not 30, 60 or 70 leaves the
interaction mode unchanged; so does a tick at one of those values whose
mode guard does not hold (wrong mode, or non-empty free-text at 30); and
once the counter is at least 70, any number of further ticks leaves the
mode unchanged. -/
theorem c8_tick_only_at_thresholds (gen : String → String) (s : WizState)
    (n m k : Nat) (t : String)
    (h30 : n + 1 ≠ 30) (h60 : n + 1 ≠ 60) (h70 : n + 1 ≠ 70) (ht : t ≠ "") :
    (tickF gen { s with inactivityTimer := n }).mode = s.mode
  ∧ (tickF gen { s with inactivityTimer := 29, mode := .options }).mode = .options
  ∧ (tickF gen { s with inactivityTimer := 29, mode := .confirmation }).mode
      = .confirmation
  ∧ (tickF gen { s with inactivityTimer := 29, mode := .input, tempInput := t }).mode
      = .input
  ∧ (tickF gen { s with inactivityTimer := 59, mode := .input }).mode = .input
  ∧ (tickF gen { s with inactivityTimer := 59, mode := .confirmation }).mode
      = .confirmation
  ∧ (tickF gen { s with inactivityTimer := 69, mode := .options }).mode = .options
  ∧ (tickF gen { s with inactivityTimer := 69, mode := .input }).mode = .input
  ∧ ((tickF gen)^[k] { s with inactivityTimer := 70 + m }).mode = s.mode := by
  refine ⟨?_, ?_, ?_, ?_, ?_, ?_, ?_, ?_, ?_⟩
  · unfold tickF; split
    · rfl
    · simp [h30, h60, h70]
  · unfold tickF; split
    · rfl
    · simp
  · unfold tickF; split
    · rfl
    · simp
  · unfold tickF; split
    · rfl
    · simp [ht]
  · unfold tickF; split
    · rfl
    · simp
  · unfold tickF; split
    · rfl
    · simp
  · unfold tickF; split
    · rfl
    · simp
  · unfold tickF; split
    · rfl
    · simp
  · exact tickF_iter_mode gen k _ (Nat.le_add_right 70 m)

/-- C8 witness at a concrete state. -/
theorem c8_witness :
    (5 + 1 ≠ 30)
  ∧ (tickF gen0 { sBase with inactivityTimer := 5 }).mode = sBase.mode :=
  ⟨by decide,
   (c8_tick_only_at_thresholds gen0 sBase 5 0 3 "hi"
     (by decide) (by decide) (by decide) (by decide)).1⟩

/-! ### C5 — option image failures are swallowed -/

lemma updateCard_getElem_none :
    ∀ (l : List OptionCard) (idx : Nat),
      (updateCard l idx none)[idx]?
        = l[idx]?.map fun cd => { cd with loading := false } := by
  intro l
  induction l with
  | nil => intro idx; simp [updateCard]
  | cons c cs ih =>
      intro idx
      cases idx with
      | zero => simp [updateCard]
      | succ n => simp [updateCard, ih n]

/-- C5: after the per-option image generation for slot `idx` fails, that
option card has `loading = false`, no image, and its label unchanged;
and on any state whose slot `idx` shows such a card (options mode, no
stored value, active step, not loading), clicking the slot still selects
it, invoking `handleSelection` with only its text label and no image.
The suggestion-fetch failure itself is also swallowed: it yields the
fixed fallback list rather than an error. -/
theorem c5_option_failures_swallowed (gen : String → String) (s s3 : WizState)
    (texts : List String) (idx : Nat) (lbl : String)
    (hl : texts[idx]? = some lbl)
    (hcard : s3.suggestedOptions[idx]?
      = some { label := lbl, imageUrl := none, loading := false })
    (h1 : s3.step ∈ activeSteps) (h2 : s3.isLoading = false)
    (h3 : hasValue s3 = false) (h4 : s3.mode = .options) :
    (wstep gen (wstep gen s (.suggestionsArrive texts))
        (.imageResult idx none)).suggestedOptions[idx]?
      = some { label := lbl, imageUrl := none, loading := false }
  ∧ wstep gen s3 (.selectOption idx) = handleSelection gen lbl none s3
  ∧ generateSuggestions .svcFail = ["A funny cat", "A big bear", "A flying fish"] := by
  refine ⟨?_, ?_, rfl⟩
  · simp only [wstep]
    rw [updateCard_getElem_none, List.getElem?_map, hl]
    rfl
  · simp only [wstep]
    rw [if_pos ⟨h1, h2, h3, h4⟩, hcard]
    rfl

/-- A concrete state for the C5 witness: the first option slot shows a
failed (non-loading, imageless) card. -/
def s3c5 : WizState :=
  { initWizard 0 with
    step := CHARACTER, mode := .options,
    suggestedOptions := [{ label := "A funny cat", imageUrl := none, loading := false }] }

/-- C5 witness at a concrete state. -/
theorem c5_witness :
    (s3c5.suggestedOptions[0]?
      = some { label := "A funny cat", imageUrl := none, loading := false })
  ∧ wstep gen0 s3c5 (.selectOption 0) = handleSelection gen0 "A funny cat" none s3c5 :=
  ⟨rfl,
   (c5_option_failures_swallowed gen0 sBase s3c5
     ["A funny cat", "A big bear", "A flying fish"] 0 "A funny cat"
     rfl rfl (by decide) rfl (by decide) rfl).2.1⟩

/-! ### Badge issuance invariant (C4, C7) -/

/-- The reachable-state invariant tying badge issuance to wizard
progress: each badge id occurs in the ghost log exactly once as soon as
the wizard has passed the step that issues it, and never before. -/
def BadgeInv (s : WizState) : Prop :=
  s.badgeLog.count "char_creator" = (if 2 ≤ s.step then 1 else 0)
  ∧ s.badgeLog.count "world_builder" = (if 3 ≤ s.step then 1 else 0)
  ∧ s.badgeLog.count "master_story" = (if 5 ≤ s.step then 1 else 0)
  ∧ s.step ≤ 5

lemma badgeInv_of_eq (s s2 : WizState) (hlog : s2.badgeLog = s.badgeLog)
    (hstep : s2.step = s.step) (h : BadgeInv s) : BadgeInv s2 := by
  unfold BadgeInv at h ⊢
  rw [hlog, hstep]
  exact h

lemma tickF_LS (gen : String → String) (s : WizState) :
    (tickF gen s).badgeLog = s.badgeLog ∧ (tickF gen s).step = s.step := by
  unfold tickF
  split
  · exact ⟨rfl, rfl⟩
  · split
    · exact ⟨rfl, rfl⟩
    · split
      · exact ⟨rfl, rfl⟩
      · split
        · unfold handleAutoSelect
          split
          · exact ⟨handleSelection_badgeLog _ _ _ _, handleSelection_step _ _ _ _⟩
          · exact ⟨handleSelection_badgeLog _ _ _ _, handleSelection_step _ _ _ _⟩
        · exact ⟨rfl, rfl⟩

lemma clearField_LS (s : WizState) :
    (clearField s).badgeLog = s.badgeLog ∧ (clearField s).step = s.step := by
  unfold clearField
  split
  · exact ⟨rfl, rfl⟩
  · split
    · exact ⟨rfl, rfl⟩
    · split
      · exact ⟨rfl, rfl⟩
      · exact ⟨rfl, rfl⟩

lemma handleVoiceInput_LS (t : String) (s : WizState) :
    (handleVoiceInput t s).badgeLog = s.badgeLog
  ∧ (handleVoiceInput t s).step = s.step := by
  unfold handleVoiceInput
  split
  · exact ⟨rfl, rfl⟩
  · exact ⟨rfl, rfl⟩

lemma generatePageFail_LS (s : WizState) :
    (generatePageFail s).badgeLog = s.badgeLog
  ∧ (generatePageFail s).step = s.step := by
  unfold generatePageFail
  split
  · exact ⟨rfl, rfl⟩
  · exact ⟨rfl, rfl⟩

lemma badgeInv_preserved (gen : String → String) (s : WizState) (e : WEvent)
    (h : BadgeInv s) : BadgeInv (wstep gen s e) := by
  cases e with
  | tick =>
      exact badgeInv_of_eq _ _ (tickF_LS gen s).1 (tickF_LS gen s).2 h
  | activity =>
      simp only [wstep]
      split
      · split
        · exact badgeInv_of_eq _ _ rfl rfl h
        · exact h
      · exact h
  | chooseAge g =>
      simp only [wstep]
      split
      · rename_i hst
        obtain ⟨hc, hw, hm, hsle⟩ := h
        rw [hst] at hc hw hm
        unfold BadgeInv
        simp [AGE_SELECTION, CHARACTER] at hc hw hm ⊢
        exact ⟨hc, hw, hm⟩
      · exact h
  | typeText v =>
      simp only [wstep]
      split
      · exact badgeInv_of_eq _ _ rfl rfl h
      · exact h
  | submitInput =>
      simp only [wstep]
      split
      · exact badgeInv_of_eq _ _ (handleSelection_badgeLog _ _ _ _)
          (handleSelection_step _ _ _ _) h
      · exact h
  | selectOption idx =>
      simp only [wstep]
      split
      · split
        · exact badgeInv_of_eq _ _ (handleSelection_badgeLog _ _ _ _)
            (handleSelection_step _ _ _ _) h
        · exact h
      · exact h
  | confirmYes =>
      simp only [wstep]
      split
      · split
        · exact badgeInv_of_eq _ _ (handleSelection_badgeLog _ _ _ _)
            (handleSelection_step _ _ _ _) h
        · exact h
      · exact h
  | confirmNo =>
      simp only [wstep]
      split
      · exact badgeInv_of_eq _ _ rfl rfl h
      · exact h
  | confirmStepBtn =>
      simp only [wstep]
      split
      · rename_i hg
        obtain ⟨hc, hw, hm, hsle⟩ := h
        have h123 : s.step = 1 ∨ s.step = 2 ∨ s.step = 3 := by
          have := hg.1
          simpa [activeSteps, CHARACTER, PLACE, TIME] using this
        unfold BadgeInv
        rw [confirmStep_badgeLog, confirmStep_step]
        rcases h123 with h1 | h1 | h1 <;>
          rw [h1] at hc hw hm ⊢ <;>
          simp [CHARACTER, PLACE, List.count_append, List.count_cons,
            List.count_nil] at hc hw hm ⊢ <;>
          simp [hc, hw, hm]
      · exact h
  | changeValue =>
      simp only [wstep]
      split
      · exact badgeInv_of_eq _ _ (clearField_LS s).1 (clearField_LS s).2 h
      · exact h
  | voice t =>
      exact badgeInv_of_eq _ _ (handleVoiceInput_LS t s).1 (handleVoiceInput_LS t s).2 h
  | generateOk segs =>
      simp only [wstep]
      split
      · rename_i hg
        unfold generatePageOk
        split
        · exact h
        · obtain ⟨hc, hw, hm, hsle⟩ := h
          rw [hg.1] at hc hw hm
          unfold BadgeInv
          simp [PLOT] at hc hw hm
          simp [setNewBadgeM, PREVIEW, List.count_append, List.count_cons,
            List.count_nil, hc, hw, hm]
      · exact h
  | generateFail =>
      simp only [wstep]
      split
      · exact badgeInv_of_eq _ _ (generatePageFail_LS s).1 (generatePageFail_LS s).2 h
      · exact h
  | suggestionsArrive texts =>
      exact badgeInv_of_eq _ _ rfl rfl h
  | imageResult idx r =>
      exact badgeInv_of_eq _ _ rfl rfl h
  | closeBadge =>
      exact badgeInv_of_eq _ _ rfl rfl h

lemma badgeInv_init (pts : Nat) : BadgeInv (initWizard pts) := by
  unfold BadgeInv initWizard AGE_SELECTION
  simp

lemma badgeInv_foldl (gen : String → String) (es : List WEvent) :
    ∀ s : WizState, BadgeInv s → BadgeInv (es.foldl (wstep gen) s) := by
  induction es with
  | nil => intro s h; exact h
  | cons e es ih => intro s h; exact ih _ (badgeInv_preserved gen s e h)

lemma badgeInv_run (gen : String → String) (pts : Nat) (es : List WEvent) :
    BadgeInv (runW gen pts es) :=
  badgeInv_foldl gen es _ (badgeInv_init pts)

lemma confirmBtn_badgeLog (gen : String → String) (s : WizState) :
    (wstep gen s .confirmStepBtn).badgeLog
      = s.badgeLog ++ (if s.step = CHARACTER ∧ hasValue s = true then ["char_creator"]
          else if s.step = PLACE ∧ hasValue s = true then ["world_builder"] else []) := by
  simp only [wstep]
  split
  · rename_i hg
    rw [confirmStep_badgeLog]
    by_cases hC : s.step = CHARACTER <;> by_cases hP : s.step = PLACE <;>
      simp [hC, hP, hg.2]
  · rename_i hg
    by_cases hC : s.step = CHARACTER
    · have hv : ¬ hasValue s = true := fun hval =>
        hg ⟨by rw [hC]; decide, hval⟩
      simp [hC, hv]
    · by_cases hP : s.step = PLACE
      · have hv : ¬ hasValue s = true := fun hval =>
          hg ⟨by rw [hP]; decide, hval⟩
        simp [hC, hP, hv]
      · simp [hC, hP]

/-! ### C4 — character and place badges, once per session -/

/-- C4: in every wizard session the character badge count in the issue
log is 1 exactly when the wizard has passed the character step and the
world badge count is 1 exactly when it has passed the place step (so
each is issued exactly once, by the confirm that commits the step);
moreover, in any state, pressing next appends the character badge when
committing the character step, the world badge when committing the place
step, and no badge otherwise — in particular none for the time step. -/
theorem c4_badges_once_per_session (gen : String → String) (pts : Nat)
    (es : List WEvent) (s : WizState) :
    (runW gen pts es).badgeLog.count "char_creator"
      = (if 2 ≤ (runW gen pts es).step then 1 else 0)
  ∧ (runW gen pts es).badgeLog.count "world_builder"
      = (if 3 ≤ (runW gen pts es).step then 1 else 0)
  ∧ (runW gen pts es).badgeLog.count "char_creator" ≤ 1
  ∧ (runW gen pts es).badgeLog.count "world_builder" ≤ 1
  ∧ (wstep gen s .confirmStepBtn).badgeLog
      = s.badgeLog ++ (if s.step = CHARACTER ∧ hasValue s = true then ["char_creator"]
          else if s.step = PLACE ∧ hasValue s = true then ["world_builder"] else []) := by
  obtain ⟨hc, hw, hm, hsle⟩ := badgeInv_run gen pts es
  refine ⟨hc, hw, ?_, ?_, confirmBtn_badgeLog gen s⟩
  · rw [hc]; split <;> omega
  · rw [hw]; split <;> omega

/-! ### C7 — final story generation: 50 points and master badge once -/

/-- The condition under which `generatePage` actually generates: the
plot step, not loading, and character, place and a truthy time all
present (the early return otherwise). -/
abbrev genGuardP (s : WizState) : Prop :=
  (s.step = PLOT ∧ s.isLoading = false)
  ∧ ¬(s.character.isNone = true ∨ s.place.isNone = true ∨ jsFalsyStr s.time = true)

lemma generateOk_spec (gen : String → String) (s : WizState) (segs : List Segment) :
    (wstep gen s (.generateOk segs)).currentPoints
      = s.currentPoints + (if genGuardP s then 50 else 0)
  ∧ (wstep gen s (.generateOk segs)).badgeLog
      = s.badgeLog ++ (if genGuardP s then ["master_story"] else [])
  ∧ (wstep gen s (.generateOk segs)).step
      = (if genGuardP s then PREVIEW else s.step) := by
  simp only [wstep]
  by_cases hg : s.step = PLOT ∧ s.isLoading = false
  · rw [if_pos hg]
    unfold generatePageOk
    by_cases hi : s.character.isNone = true ∨ s.place.isNone = true
        ∨ jsFalsyStr s.time = true
    · rw [if_pos hi]
      have hng : ¬ genGuardP s := fun hgp => hgp.2 hi
      simp [hng]
    · rw [if_neg hi]
      have hgp : genGuardP s := ⟨hg, hi⟩
      simp only [setNewBadgeM]
      rw [if_pos hgp, if_pos hgp, if_pos hgp]
      exact ⟨rfl, rfl, rfl⟩
  · rw [if_neg hg]
    have hng : ¬ genGuardP s := fun hgp => hg hgp.1
    simp [hng]

lemma generateFail_spec (gen : String → String) (s : WizState) :
    (wstep gen s .generateFail).currentPoints = s.currentPoints
  ∧ (wstep gen s .generateFail).badgeLog = s.badgeLog
  ∧ (wstep gen s .generateFail).step = s.step := by
  simp only [wstep]
  split
  · unfold generatePageFail
    split
    · exact ⟨rfl, rfl, rfl⟩
    · exact ⟨rfl, rfl, rfl⟩
  · exact ⟨rfl, rfl, rfl⟩

/-- C7: in every wizard session the master badge count in the issue log
is 1 exactly when the wizard has reached the preview step (so it is
issued at most once); a successful generation — whatever the number of
segments, hence of pages — adds exactly 50 points, appends the master
badge once and moves to the preview step when the generation guard
holds, and does nothing otherwise; a failed generation never changes
points, badge log or step. -/
theorem c7_master_badge_once (gen : String → String) (pts : Nat)
    (es : List WEvent) (s : WizState) (segs : List Segment) :
    (runW gen pts es).badgeLog.count "master_story"
      = (if 5 ≤ (runW gen pts es).step then 1 else 0)
  ∧ (runW gen pts es).badgeLog.count "master_story" ≤ 1
  ∧ (wstep gen s (.generateOk segs)).currentPoints
      = s.currentPoints + (if genGuardP s then 50 else 0)
  ∧ (wstep gen s (.generateOk segs)).badgeLog
      = s.badgeLog ++ (if genGuardP s then ["master_story"] else [])
  ∧ (wstep gen s (.generateOk segs)).step
      = (if genGuardP s then PREVIEW else s.step)
  ∧ (wstep gen s .generateFail).currentPoints = s.currentPoints
  ∧ (wstep gen s .generateFail).badgeLog = s.badgeLog
  ∧ (wstep gen s .generateFail).step = s.step := by
  obtain ⟨hc, hw, hm, hsle⟩ := badgeInv_run gen pts es
  have hok := generateOk_spec gen s segs
  have hfail := generateFail_spec gen s
  refine ⟨hm, ?_, hok.1, hok.2.1, hok.2.2, hfail.1, hfail.2.1, hfail.2.2⟩
  rw [hm]; split <;> omega

end StoryApp
